import Mathlib

/-!
Verification of the multi-page aggregation and scoring engine of
wp-modernization-audit.

The embedding translates, from the repository's sources:
  * the data model (src/types.ts),
  * the four category analyzers (src/analyzers/security.ts — which also
    carries the v0.4.0 performance analyzer —, src/analyzers/seo.ts),
  * the scoring rules and scorer (src/scoring/rules.ts),
  * the v0.4.0 aggregation code of the CLI entry point (runAudit).

JavaScript numbers are modelled as ℚ where fractional values occur
(coverages, image ratios, Core Web Vitals) and as ℕ for the integer counts
and point totals the code manipulates.  String truthiness (undefined or ""
being falsy) is modelled by optTruthy.  Issue/recommendation strings, pure
presentation, are omitted except where a claim depends on them; the SEO
coverage issues are modelled structurally.

Two pieces of v0.4.0 code are not present in the snapshot (only their
declarations, callers and documentation are): the Core-Web-Vitals bonus in
scorePerformance and the coverage-aware aggregated SEO analyzer.  Those are
modelled from the spec, and each such definition's doc comment says so.
-/

namespace WpAudit

/-! ## Data model (src/types.ts) -/

/-- Image format counts of one page (types.ts, PerformanceResult.imageFormats). -/
structure ImageFormats where
  jpeg : Nat
  png : Nat
  webp : Nat
  avif : Nat
  svg : Nat
  gif : Nat
deriving DecidableEq, Repr

/-- Raw SEO fields of one fetched page (types.ts, SeoResult). -/
structure SeoResult where
  title : Option String
  metaDescription : Option String
  canonicalUrl : Option String
  h1Tags : List String
  hasRobotsTxt : Bool
  hasSitemap : Bool
deriving DecidableEq, Repr

/-- Raw performance counts of one fetched page (types.ts, PerformanceResult). -/
structure PerformanceResult where
  htmlSizeBytes : Nat
  numScripts : Nat
  numStylesheets : Nat
  blockingScripts : Nat
  blockingStylesheets : Nat
  imageFormats : ImageFormats
  hasCacheControl : Bool
  cacheControlValue : Option String
deriving DecidableEq, Repr

/-- Raw security flags of one fetched page (types.ts, SecurityResult; the
presentation-only securityHeaders map, never read by the analyzer, is
omitted). -/
structure SecurityResult where
  isHttps : Bool
  hasXContentTypeOptions : Bool
  hasXFrameOptions : Bool
  hasContentSecurityPolicy : Bool
  exposedWpVersion : Bool
deriving DecidableEq, Repr

/-- Site-level modernization probes (types.ts, ModernizationResult). -/
structure ModernizationResult where
  hasRestApi : Bool
  hasPostsEndpoint : Bool
  hasPagesEndpoint : Bool
  hasPrettyPermalinks : Bool
  usesCdn : Bool
  cdnDomains : List String
deriving DecidableEq, Repr

/-- Field performance record (types.ts, LighthouseData); only the four
metrics the analyzer reads. -/
structure LighthouseData where
  lcp : ℚ
  cls : ℚ
  inp : ℚ
  ttfb : ℚ
deriving DecidableEq, Repr

/-- One successfully fetched page (types.ts, PageResult; the HTTP transcript,
consumed before the core runs, is omitted). -/
structure PageResult where
  path : String
  seoResult : SeoResult
  performanceResult : PerformanceResult
  securityResult : SecurityResult
  lighthouseData : Option LighthouseData
deriving DecidableEq, Repr

/-- JavaScript truthiness of an optional string: undefined and "" are falsy. -/
def optTruthy : Option String → Bool
  | none => false
  | some s => !s.isEmpty

/-! ## Analyzer result types (src/types.ts) -/

inductive HtmlSizeCategory where
  | excellent
  | good
  | fair
  | poor
deriving DecidableEq, Repr

inductive ScriptLoadCategory where
  | excellent
  | good
  | heavy
deriving DecidableEq, Repr

inductive ImageOptimization where
  | excellent
  | good
  | poor
deriving DecidableEq, Repr

/-- The "excellent" | "partial" | "none" caching tri-state; the middle
constructor is named partialCov here. -/
inductive CachingCategory where
  | excellent
  | partialCov
  | none
deriving DecidableEq, Repr

inductive CwvStatus where
  | good
  | needsImprovement
  | poor
deriving DecidableEq, Repr

/-- The coreWebVitals sub-block of PerformanceAnalysis (v0.4.0). -/
structure CoreWebVitals where
  lcpStatus : CwvStatus
  clsStatus : CwvStatus
  inpStatus : CwvStatus
  ttfbStatus : CwvStatus
deriving DecidableEq, Repr

structure PerformanceAnalysis where
  htmlSizeCategory : HtmlSizeCategory
  scriptLoadCategory : ScriptLoadCategory
  imageOptimization : ImageOptimization
  caching : CachingCategory
  coreWebVitals : Option CoreWebVitals
deriving DecidableEq, Repr

inductive SeoQuality where
  | excellent
  | good
  | missing
deriving DecidableEq, Repr

inductive H1Quality where
  | excellent
  | issues
  | missing
deriving DecidableEq, Repr

structure SeoAnalysis where
  titleQuality : SeoQuality
  metaDescriptionQuality : SeoQuality
  h1Quality : H1Quality
  hasCanonical : Bool
  hasRobotsTxt : Bool
  hasSitemap : Bool
deriving DecidableEq, Repr

inductive HttpsStatus where
  | secure
  | insecure
deriving DecidableEq, Repr

/-- The "excellent" | "partial" | "none" headers tri-state. -/
inductive HeadersCoverage where
  | excellent
  | partialCov
  | none
deriving DecidableEq, Repr

inductive VersionExposure where
  | hidden
  | exposed
deriving DecidableEq, Repr

inductive OverallPosture where
  | strong
  | moderate
  | weak
deriving DecidableEq, Repr

structure SecurityAnalysis where
  httpsStatus : HttpsStatus
  headersCoverage : HeadersCoverage
  versionExposure : VersionExposure
  overallPosture : OverallPosture
deriving DecidableEq, Repr

/-- The "full" | "partial" | "none" REST tri-state. -/
inductive RestApiStatus where
  | full
  | partialCov
  | none
deriving DecidableEq, Repr

inductive PermalinkModernity where
  | modern
  | mixed
  | legacy
deriving DecidableEq, Repr

/-- The "yes" | "partial" | "no" CDN tri-state. -/
inductive CdnUsage where
  | yes
  | partialCov
  | no
deriving DecidableEq, Repr

inductive HeadlessReadiness where
  | ready
  | needsWork
  | notReady
deriving DecidableEq, Repr

structure ModernizationAnalysis where
  restApiStatus : RestApiStatus
  permalinkModernity : PermalinkModernity
  cdnUsage : CdnUsage
  headlessReadiness : HeadlessReadiness
deriving DecidableEq, Repr

inductive Rating where
  | healthy
  | needsOptimization
  | needsModernization
  | legacy
deriving DecidableEq, Repr

structure ScoringResult where
  performance : Nat
  seo : Nat
  security : Nat
  modernization : Nat
  overall : Nat
  rating : Rating
deriving DecidableEq, Repr

/-! ## Performance analyzer (src/analyzers/security.ts, second document:
the v0.4.0 analyzePerformance) -/

/-- HTML size branch of analyzePerformance. -/
def htmlSizeCategoryOf (htmlSizeBytes : Nat) : HtmlSizeCategory :=
  if htmlSizeBytes < 100000 then .excellent
  else if htmlSizeBytes < 200000 then .good
  else if htmlSizeBytes < 300000 then .fair
  else .poor

/-- Script load branch of analyzePerformance. -/
def scriptLoadCategoryOf (numScripts : Nat) : ScriptLoadCategory :=
  if numScripts < 10 then .excellent
  else if numScripts < 20 then .good
  else .heavy

/-- Object.values(perfData.imageFormats) summed. -/
def totalImages (f : ImageFormats) : Nat :=
  f.jpeg + f.png + f.webp + f.avif + f.svg + f.gif

/-- webp + avif. -/
def modernFormats (f : ImageFormats) : Nat :=
  f.webp + f.avif

/-- Image optimization branch of analyzePerformance. -/
def imageOptimizationOf (f : ImageFormats) : ImageOptimization :=
  if totalImages f = 0 then .excellent
  else if (modernFormats f : ℚ) / (totalImages f : ℚ) > 7/10 then .excellent
  else if (modernFormats f : ℚ) / (totalImages f : ℚ) > 3/10 then .good
  else .poor

/-- Caching branch of analyzePerformance: hasCacheControl plus a truthy
(non-empty) cacheControlValue is excellent, hasCacheControl alone partial. -/
def cachingOf (hasCacheControl : Bool) (cacheControlValue : Option String) :
    CachingCategory :=
  if hasCacheControl && optTruthy cacheControlValue then .excellent
  else if hasCacheControl then .partialCov
  else .none

/-- LCP status: good < 2500 ms, needs-improvement < 4000 ms, else poor. -/
def lcpStatusOf (lcp : ℚ) : CwvStatus :=
  if lcp < 2500 then .good else if lcp < 4000 then .needsImprovement else .poor

/-- CLS status: good < 0.1, needs-improvement < 0.25, else poor. -/
def clsStatusOf (cls : ℚ) : CwvStatus :=
  if cls < 1/10 then .good else if cls < 1/4 then .needsImprovement else .poor

/-- INP status: good < 200 ms, needs-improvement < 500 ms, else poor. -/
def inpStatusOf (inp : ℚ) : CwvStatus :=
  if inp < 200 then .good else if inp < 500 then .needsImprovement else .poor

/-- TTFB status: good < 800 ms, needs-improvement < 1800 ms, else poor. -/
def ttfbStatusOf (ttfb : ℚ) : CwvStatus :=
  if ttfb < 800 then .good else if ttfb < 1800 then .needsImprovement else .poor

/-- analyzePerformance (v0.4.0): classifies the aggregated counts, and the
Core Web Vitals when a lighthouse record is present. -/
def analyzePerformance (perfData : PerformanceResult)
    (lighthouseData : Option LighthouseData) : PerformanceAnalysis :=
  { htmlSizeCategory := htmlSizeCategoryOf perfData.htmlSizeBytes
    scriptLoadCategory := scriptLoadCategoryOf perfData.numScripts
    imageOptimization := imageOptimizationOf perfData.imageFormats
    caching := cachingOf perfData.hasCacheControl perfData.cacheControlValue
    coreWebVitals := lighthouseData.map fun lh =>
      { lcpStatus := lcpStatusOf lh.lcp
        clsStatus := clsStatusOf lh.cls
        inpStatus := inpStatusOf lh.inp
        ttfbStatus := ttfbStatusOf lh.ttfb } }

/-! ## Single-page SEO analyzer (src/analyzers/seo.ts, first document) -/

/-- Title branch of analyzeSeo: missing when falsy, good when shorter than 30
or longer than 60 characters, else excellent. -/
def titleQualityOf : Option String → SeoQuality
  | none => .missing
  | some t =>
      if t.isEmpty then .missing
      else if t.length < 30 || t.length > 60 then .good
      else .excellent

/-- Meta description branch of analyzeSeo: missing when falsy, good when
shorter than 120 or longer than 160 characters, else excellent. -/
def metaDescriptionQualityOf : Option String → SeoQuality
  | none => .missing
  | some d =>
      if d.isEmpty then .missing
      else if d.length < 120 || d.length > 160 then .good
      else .excellent

/-- H1 branch of analyzeSeo: no H1 is missing, more than one is issues,
exactly one is excellent. -/
def h1QualityOf (h1Tags : List String) : H1Quality :=
  if h1Tags.length = 0 then .missing
  else if h1Tags.length > 1 then .issues
  else .excellent

/-- analyzeSeo on one page's raw SEO fields (the single-page code path). -/
def analyzeSeo (seoData : SeoResult) : SeoAnalysis :=
  { titleQuality := titleQualityOf seoData.title
    metaDescriptionQuality := metaDescriptionQualityOf seoData.metaDescription
    h1Quality := h1QualityOf seoData.h1Tags
    hasCanonical := optTruthy seoData.canonicalUrl
    hasRobotsTxt := seoData.hasRobotsTxt
    hasSitemap := seoData.hasSitemap }

/-! ## Security analyzer (src/analyzers/security.ts, first document) -/

/-- requiredHeaders.filter(Boolean).length. -/
def presentHeaderCount (secData : SecurityResult) : Nat :=
  (if secData.hasXContentTypeOptions then 1 else 0)
    + (if secData.hasXFrameOptions then 1 else 0)
    + (if secData.hasContentSecurityPolicy then 1 else 0)

/-- analyzeSecurity: HTTPS, header coverage, version exposure and the overall
posture derived from the three. -/
def analyzeSecurity (secData : SecurityResult) : SecurityAnalysis :=
  let httpsStatus : HttpsStatus := if secData.isHttps then .secure else .insecure
  let presentCount := presentHeaderCount secData
  let headersCoverage : HeadersCoverage :=
    if presentCount = 3 then .excellent
    else if presentCount ≥ 1 then .partialCov
    else .none
  let versionExposure : VersionExposure :=
    if secData.exposedWpVersion then .exposed else .hidden
  let overallPosture : OverallPosture :=
    if httpsStatus = .secure ∧ headersCoverage = .excellent ∧
        versionExposure = .hidden then .strong
    else if httpsStatus = .insecure ∨ headersCoverage = .none then .weak
    else .moderate
  { httpsStatus, headersCoverage, versionExposure, overallPosture }

/-! ## Modernization analyzer (src/analyzers/seo.ts, second document) -/

/-- analyzeModernization: REST tri-state, permalink and CDN booleans (the
mixed/partial middle buckets are in the type but never produced), headless
readiness derived from REST and permalinks. -/
def analyzeModernization (modData : ModernizationResult) : ModernizationAnalysis :=
  let restApiStatus : RestApiStatus :=
    if modData.hasRestApi && modData.hasPostsEndpoint && modData.hasPagesEndpoint
      then .full
    else if modData.hasRestApi then .partialCov
    else .none
  let permalinkModernity : PermalinkModernity :=
    if modData.hasPrettyPermalinks then .modern else .legacy
  let cdnUsage : CdnUsage :=
    if modData.usesCdn && !modData.cdnDomains.isEmpty then .yes else .no
  let headlessReadiness : HeadlessReadiness :=
    if restApiStatus = .full ∧ permalinkModernity = .modern then .ready
    else if restApiStatus = .none ∨ permalinkModernity = .legacy then .notReady
    else .needsWork
  { restApiStatus, permalinkModernity, cdnUsage, headlessReadiness }

/-! ## Scoring rules (src/scoring/rules.ts) -/

/-- HTML size points: 6/4/2/0. -/
def htmlSizePoints : HtmlSizeCategory → Nat
  | .excellent => 6
  | .good => 4
  | .fair => 2
  | .poor => 0

/-- Script load points: 8/5/1. -/
def scriptLoadPoints : ScriptLoadCategory → Nat
  | .excellent => 8
  | .good => 5
  | .heavy => 1

/-- Image optimization points: 6/3/0. -/
def imageOptimizationPoints : ImageOptimization → Nat
  | .excellent => 6
  | .good => 3
  | .poor => 0

/-- Caching points: 6/3/0. -/
def cachingPoints : CachingCategory → Nat
  | .excellent => 6
  | .partialCov => 3
  | .none => 0

/-- scorePerformance as rules.ts has it: the four category tables, a flat +4
CSS baseline, clamped to 30.  (This pre-0.4.0 scorer ignores the
coreWebVitals sub-block; see scorePerformanceWithVitals.) -/
def scorePerformance (analysis : PerformanceAnalysis) : Nat :=
  min (htmlSizePoints analysis.htmlSizeCategory
    + scriptLoadPoints analysis.scriptLoadCategory
    + imageOptimizationPoints analysis.imageOptimization
    + cachingPoints analysis.caching
    + 4) 30

/-- Title points: 6/4/0. -/
def titlePoints : SeoQuality → Nat
  | .excellent => 6
  | .good => 4
  | .missing => 0

/-- Meta description points: 6/4/0 (same table as titles). -/
def metaDescriptionPoints : SeoQuality → Nat
  | .excellent => 6
  | .good => 4
  | .missing => 0

/-- H1 points: 5/2/0. -/
def h1Points : H1Quality → Nat
  | .excellent => 5
  | .issues => 2
  | .missing => 0

/-- scoreSeo: title, meta, H1 tables, +4 flat for a canonical, 4/2/0 for
robots.txt and sitemap, clamped to 25. -/
def scoreSeo (analysis : SeoAnalysis) : Nat :=
  min (titlePoints analysis.titleQuality
    + metaDescriptionPoints analysis.metaDescriptionQuality
    + h1Points analysis.h1Quality
    + (if analysis.hasCanonical then 4 else 0)
    + (if analysis.hasRobotsTxt && analysis.hasSitemap then 4
       else if analysis.hasRobotsTxt || analysis.hasSitemap then 2
       else 0)) 25

/-- Header coverage points: 10/5/0. -/
def headersPoints : HeadersCoverage → Nat
  | .excellent => 10
  | .partialCov => 5
  | .none => 0

/-- scoreSecurity: +5 for HTTPS, the headers table, +5 for a hidden version,
a flat +5 update-posture baseline, clamped to 25. -/
def scoreSecurity (analysis : SecurityAnalysis) : Nat :=
  min ((if analysis.httpsStatus = .secure then 5 else 0)
    + headersPoints analysis.headersCoverage
    + (if analysis.versionExposure = .hidden then 5 else 0)
    + 5) 25

/-- REST API points: 6/3/0. -/
def restApiPoints : RestApiStatus → Nat
  | .full => 6
  | .partialCov => 3
  | .none => 0

/-- Content endpoint points, mirroring the REST tri-state: 5/2/0. -/
def endpointPoints : RestApiStatus → Nat
  | .full => 5
  | .partialCov => 2
  | .none => 0

/-- Permalink points: 5/2/0. -/
def permalinkPoints : PermalinkModernity → Nat
  | .modern => 5
  | .mixed => 2
  | .legacy => 0

/-- CDN points: 4/2/0. -/
def cdnPoints : CdnUsage → Nat
  | .yes => 4
  | .partialCov => 2
  | .no => 0

/-- scoreModernization: REST, endpoints, permalinks and CDN tables, clamped
to 20. -/
def scoreModernization (analysis : ModernizationAnalysis) : Nat :=
  min (restApiPoints analysis.restApiStatus
    + endpointPoints analysis.restApiStatus
    + permalinkPoints analysis.permalinkModernity
    + cdnPoints analysis.cdnUsage) 20

/-- getRating: ≥80 healthy, ≥60 needs-optimization, ≥40 needs-modernization,
else legacy. -/
def getRating (overallScore : Nat) : Rating :=
  if overallScore ≥ 80 then .healthy
  else if overallScore ≥ 60 then .needsOptimization
  else if overallScore ≥ 40 then .needsModernization
  else .legacy

/-- calculateScores (src/scoring, second document): the four sub-scores, the
unclamped sum and its rating band. -/
def calculateScores (performanceAnalysis : PerformanceAnalysis)
    (seoAnalysis : SeoAnalysis) (securityAnalysis : SecurityAnalysis)
    (modernizationAnalysis : ModernizationAnalysis) : ScoringResult :=
  let performance := scorePerformance performanceAnalysis
  let seo := scoreSeo seoAnalysis
  let security := scoreSecurity securityAnalysis
  let modernization := scoreModernization modernizationAnalysis
  let overall := performance + seo + security + modernization
  { performance, seo, security, modernization, overall, rating := getRating overall }

/-! ## v0.4.0 Core-Web-Vitals bonus scorer -/

/-- Modelled from the spec: the v0.4.0 rules.ts (whose CHANGELOG entry says
performance scoring gained Web-Vitals bonus points, max raised from 30 to
41) is not in the snapshot; the bonus table for LCP, CLS and INP is +3 for
good, +1 for needs-improvement, +0 for poor. -/
def cwvMetricBonus : CwvStatus → Nat
  | .good => 3
  | .needsImprovement => 1
  | .poor => 0

/-- Modelled from the spec: the TTFB bonus is +2 good, +1 needs-improvement,
+0 poor. -/
def ttfbBonus : CwvStatus → Nat
  | .good => 2
  | .needsImprovement => 1
  | .poor => 0

/-- Modelled from the spec: total Core-Web-Vitals bonus, zero when no field
performance record was fetched. -/
def cwvBonus : Option CoreWebVitals → Nat
  | Option.none => 0
  | Option.some c =>
      cwvMetricBonus c.lcpStatus + cwvMetricBonus c.clsStatus
        + cwvMetricBonus c.inpStatus + ttfbBonus c.ttfbStatus

/-- Modelled from the spec: the v0.4.0 scorePerformance overlays the bonus on
the clamped 30-point base, raising the ceiling to 41 only in bonus mode. -/
def scorePerformanceWithVitals (analysis : PerformanceAnalysis) : Nat :=
  scorePerformance analysis + cwvBonus analysis.coreWebVitals

/-- Modelled from the spec: the v0.4.0 calculateScores, identical to
calculateScores except that performance carries the Core-Web-Vitals bonus. -/
def calculateScoresWithVitals (performanceAnalysis : PerformanceAnalysis)
    (seoAnalysis : SeoAnalysis) (securityAnalysis : SecurityAnalysis)
    (modernizationAnalysis : ModernizationAnalysis) : ScoringResult :=
  let performance := scorePerformanceWithVitals performanceAnalysis
  let seo := scoreSeo seoAnalysis
  let security := scoreSecurity securityAnalysis
  let modernization := scoreModernization modernizationAnalysis
  let overall := performance + seo + security + modernization
  { performance, seo, security, modernization, overall, rating := getRating overall }

/-! ## Multi-page aggregation (v0.4.0 runAudit, CLI entry point) -/

/-- isHomepage: path === "/" || path === "". -/
def isHomepage (path : String) : Bool :=
  path == "/" || path == ""

/-- SEO weight of a page: the homepage gets 2, every other page 1. -/
def seoWeight (p : PageResult) : Nat :=
  if isHomepage p.path then 2 else 1

/-- totalSeoWeight: sum of all page weights. -/
def totalSeoWeight (pageResults : List PageResult) : Nat :=
  (pageResults.map seoWeight).sum

/-- Weighted count of the pages whose SEO record satisfies a predicate
(the filter-then-reduce pattern of pagesWithTitle and its siblings). -/
def weightedSeoCount (pred : SeoResult → Bool) (pageResults : List PageResult) : Nat :=
  ((pageResults.filter fun p => pred p.seoResult).map seoWeight).sum

/-- pagesWithTitle: weighted count of pages with a truthy title. -/
def pagesWithTitle : List PageResult → Nat :=
  weightedSeoCount fun s => optTruthy s.title

/-- pagesWithMeta: weighted count of pages with a truthy meta description. -/
def pagesWithMeta : List PageResult → Nat :=
  weightedSeoCount fun s => optTruthy s.metaDescription

/-- pagesWithCanonical: weighted count of pages with a truthy canonical URL. -/
def pagesWithCanonical : List PageResult → Nat :=
  weightedSeoCount fun s => optTruthy s.canonicalUrl

/-- pagesWithGoodH1: weighted count of pages with exactly one H1. -/
def pagesWithGoodH1 : List PageResult → Nat :=
  weightedSeoCount fun s => s.h1Tags.length == 1

/-- The _aggregation side-channel attached to the aggregated SEO record. -/
structure SeoAggregation where
  titleCoverage : ℚ
  metaCoverage : ℚ
  canonicalCoverage : ℚ
  h1Coverage : ℚ
  totalPages : Nat
deriving DecidableEq, Repr

/-- The aggregated pseudo-observation handed to the SEO analyzer: first-page
display values gated on non-zero weighted counts, OR-combined robots/sitemap
flags, and the coverage metadata. -/
structure AggregatedSeo where
  title : Option String
  metaDescription : Option String
  canonicalUrl : Option String
  h1Tags : List String
  hasRobotsTxt : Bool
  hasSitemap : Bool
  aggregation : SeoAggregation
deriving DecidableEq, Repr

/-- aggregatedSeo of runAudit (v0.4.0), on the non-empty page list
first :: rest. -/
def aggregatedSeo (first : PageResult) (rest : List PageResult) : AggregatedSeo :=
  let pageResults := first :: rest
  { title := if pagesWithTitle pageResults > 0 then first.seoResult.title
             else none
    metaDescription := if pagesWithMeta pageResults > 0
             then first.seoResult.metaDescription else none
    canonicalUrl := if pagesWithCanonical pageResults > 0
             then first.seoResult.canonicalUrl else none
    h1Tags := if pagesWithGoodH1 pageResults > 0 then first.seoResult.h1Tags
             else []
    hasRobotsTxt := pageResults.any fun p => p.seoResult.hasRobotsTxt
    hasSitemap := pageResults.any fun p => p.seoResult.hasSitemap
    aggregation :=
      { titleCoverage :=
          (pagesWithTitle pageResults : ℚ) / (totalSeoWeight pageResults : ℚ)
        metaCoverage :=
          (pagesWithMeta pageResults : ℚ) / (totalSeoWeight pageResults : ℚ)
        canonicalCoverage :=
          (pagesWithCanonical pageResults : ℚ) / (totalSeoWeight pageResults : ℚ)
        h1Coverage :=
          (pagesWithGoodH1 pageResults : ℚ) / (totalSeoWeight pageResults : ℚ)
        totalPages := pageResults.length } }

/-- Math.round for the non-negative averages of the aggregator:
round(sum / length), i.e. floor(x + 1/2). -/
def meanRounded (values : List Nat) : Nat :=
  (round ((values.sum : ℚ) / (values.length : ℚ))).toNat

/-- aggregatedPerf of runAudit (v0.4.0): arithmetic means rounded to nearest,
hasCacheControl OR-combined, cacheControlValue the first truthy value in
input order. -/
def aggregatedPerf (first : PageResult) (rest : List PageResult) : PerformanceResult :=
  let pageResults := first :: rest
  { htmlSizeBytes :=
      meanRounded (pageResults.map fun p => p.performanceResult.htmlSizeBytes)
    numScripts :=
      meanRounded (pageResults.map fun p => p.performanceResult.numScripts)
    numStylesheets :=
      meanRounded (pageResults.map fun p => p.performanceResult.numStylesheets)
    blockingScripts :=
      meanRounded (pageResults.map fun p => p.performanceResult.blockingScripts)
    blockingStylesheets :=
      meanRounded (pageResults.map fun p => p.performanceResult.blockingStylesheets)
    imageFormats :=
      { jpeg := meanRounded (pageResults.map fun p => p.performanceResult.imageFormats.jpeg)
        png := meanRounded (pageResults.map fun p => p.performanceResult.imageFormats.png)
        webp := meanRounded (pageResults.map fun p => p.performanceResult.imageFormats.webp)
        avif := meanRounded (pageResults.map fun p => p.performanceResult.imageFormats.avif)
        svg := meanRounded (pageResults.map fun p => p.performanceResult.imageFormats.svg)
        gif := meanRounded (pageResults.map fun p => p.performanceResult.imageFormats.gif) }
    hasCacheControl := pageResults.any fun p => p.performanceResult.hasCacheControl
    cacheControlValue :=
      ((pageResults.find? fun p => optTruthy p.performanceResult.cacheControlValue).bind
        fun p => p.performanceResult.cacheControlValue) }

/-- Lighthouse data selection of runAudit: the homepage entry's record when
truthy, else the first page's. -/
def lighthouseFor (first : PageResult) (rest : List PageResult) : Option LighthouseData :=
  let pageResults := first :: rest
  match ((pageResults.find? fun p => p.path == "/").bind fun p => p.lighthouseData) with
  | Option.some lh => Option.some lh
  | Option.none => first.lighthouseData

/-! ## Aggregated SEO analyzer (v0.4.0) -/

/-- The SEO feature a coverage issue talks about. -/
inductive SeoField where
  | title
  | metaDescription
  | h1
deriving DecidableEq, Repr

/-- Modelled from the spec: the issues the coverage-aware analyzer emits
(structural stand-ins for the issue strings; the percentage carried is
round((1 - coverage) * 100)). -/
inductive SeoIssue where
  | coverageGap (field : SeoField) (percentMissing : ℤ)
  | criticalGap (field : SeoField) (percentMissing : ℤ)
  | noRobotsTxt
  | noSitemap
deriving DecidableEq, Repr

/-- Modelled from the spec: the coverage buckets of the v0.4.0 aggregated SEO
analyzer (absent from the snapshot): coverage ≥ 0.95 excellent, ≥ 0.7 good,
else missing. -/
def coverageQuality (coverage : ℚ) : SeoQuality :=
  if coverage ≥ 95/100 then .excellent
  else if coverage ≥ 7/10 then .good
  else .missing

/-- Modelled from the spec: the same buckets for the H1 tri-state, whose
middle bucket is named issues. -/
def h1CoverageQuality (coverage : ℚ) : H1Quality :=
  if coverage ≥ 95/100 then .excellent
  else if coverage ≥ 7/10 then .issues
  else .missing

/-- Modelled from the spec: the percentage a coverage issue states. -/
def percentMissingOf (coverage : ℚ) : ℤ :=
  round ((1 - coverage) * 100)

/-- Modelled from the spec: the issues one coverage figure contributes — none
when excellent, a plain gap when good, a critical ("Critically:") gap when
missing. -/
def coverageIssues (field : SeoField) (coverage : ℚ) : List SeoIssue :=
  if coverage ≥ 95/100 then []
  else if coverage ≥ 7/10 then [.coverageGap field (percentMissingOf coverage)]
  else [.criticalGap field (percentMissingOf coverage)]

/-- Modelled from the spec: the v0.4.0 analyzeSeo on an aggregated record
(the snapshot only has the single-page analyzer): title, meta and H1 are
bucketed by weighted coverage, canonical stays boolean presence of the
aggregated value, robots/sitemap are passed through. -/
def analyzeSeoAggregated (agg : AggregatedSeo) : SeoAnalysis :=
  { titleQuality := coverageQuality agg.aggregation.titleCoverage
    metaDescriptionQuality := coverageQuality agg.aggregation.metaCoverage
    h1Quality := h1CoverageQuality agg.aggregation.h1Coverage
    hasCanonical := optTruthy agg.canonicalUrl
    hasRobotsTxt := agg.hasRobotsTxt
    hasSitemap := agg.hasSitemap }

/-- Modelled from the spec: the issue list of the v0.4.0 aggregated SEO
analyzer — coverage issues for title, meta and H1, then robots.txt and
sitemap absence. -/
def aggregatedSeoIssues (agg : AggregatedSeo) : List SeoIssue :=
  coverageIssues .title agg.aggregation.titleCoverage
    ++ coverageIssues .metaDescription agg.aggregation.metaCoverage
    ++ coverageIssues .h1 agg.aggregation.h1Coverage
    ++ (if agg.hasRobotsTxt then [] else [.noRobotsTxt])
    ++ (if agg.hasSitemap then [] else [.noSitemap])

/-- aggregatedSecurity of runAudit (v0.4.0): the first page's security
record verbatim; the rest of the list is deliberately unread. -/
def aggregatedSecurity (first : PageResult) (rest : List PageResult) : SecurityResult :=
  first.securityResult

/-! ## The audit core pipeline (v0.4.0 runAudit after all fetches) -/

/-- The aggregation-and-scoring core of runAudit: on an empty page list the
run aborts (process.exit(2)) and no aggregate is ever formed, modelled as
none; otherwise the aggregated pseudo-observations are analyzed and scored. -/
def runAuditCore (pageResults : List PageResult)
    (modernizationResult : ModernizationResult) : Option ScoringResult :=
  match pageResults with
  | [] => Option.none
  | first :: rest =>
      let performanceAnalysis :=
        analyzePerformance (aggregatedPerf first rest) (lighthouseFor first rest)
      let seoAnalysis := analyzeSeoAggregated (aggregatedSeo first rest)
      let securityAnalysis := analyzeSecurity (aggregatedSecurity first rest)
      let modernizationAnalysis := analyzeModernization modernizationResult
      Option.some (calculateScoresWithVitals performanceAnalysis seoAnalysis
        securityAnalysis modernizationAnalysis)

/-! ## Concrete fixtures used by the claim theorems -/

/-- A page's raw SEO fields with everything present at ideal lengths:
a 53-character title, a 140-character meta description, a canonical URL,
exactly one H1, robots.txt and sitemap present. -/
def perfectSeoResult : SeoResult :=
  { title := some "Fast Modern WordPress Site With Excellent Performance"
    metaDescription := some "A thoroughly modern WordPress site with excellent performance, strong security headers, and a clean, accessible structure for every visitor."
    canonicalUrl := some "https://example.com/"
    h1Tags := ["Welcome to the Example Site"]
    hasRobotsTxt := true
    hasSitemap := true }

/-- Raw performance counts classifying excellent everywhere: 50 KB of HTML,
5 scripts, no blocking resources, all 10 images in modern formats, a
cache-control header with a non-empty value. -/
def perfectPerformanceResult : PerformanceResult :=
  { htmlSizeBytes := 50000
    numScripts := 5
    numStylesheets := 2
    blockingScripts := 0
    blockingStylesheets := 0
    imageFormats := { jpeg := 0, png := 0, webp := 8, avif := 2, svg := 0, gif := 0 }
    hasCacheControl := true
    cacheControlValue := some "max-age=3600" }

/-- Raw security flags at their best: HTTPS, all three headers, version
hidden. -/
def perfectSecurityResult : SecurityResult :=
  { isHttps := true
    hasXContentTypeOptions := true
    hasXFrameOptions := true
    hasContentSecurityPolicy := true
    exposedWpVersion := false }

/-- Site-level modernization probes at their best: full REST with both
endpoints, pretty permalinks, a CDN in use. -/
def perfectModernizationResult : ModernizationResult :=
  { hasRestApi := true
    hasPostsEndpoint := true
    hasPagesEndpoint := true
    hasPrettyPermalinks := true
    usesCdn := true
    cdnDomains := ["cdn.example.com"] }

/-- A field-performance record with all four Core Web Vitals in the good
band: LCP 2000 ms, CLS 0.05, INP 150 ms, TTFB 700 ms. -/
def goodVitals : LighthouseData :=
  { lcp := 2000, cls := 1/20, inp := 150, ttfb := 700 }

/-- The audited homepage: path "/", everything present. -/
def auditedPageA : PageResult :=
  { path := "/"
    seoResult := perfectSeoResult
    performanceResult := perfectPerformanceResult
    securityResult := perfectSecurityResult
    lighthouseData := none }

/-- A second audited page at path "/blog", everything present. -/
def auditedPageB : PageResult :=
  { path := "/blog"
    seoResult := perfectSeoResult
    performanceResult := perfectPerformanceResult
    securityResult := perfectSecurityResult
    lighthouseData := none }

/-- A third audited page at path "/contact" whose title is missing. -/
def untitledPage : PageResult :=
  { path := "/contact"
    seoResult := { perfectSeoResult with title := none }
    performanceResult := perfectPerformanceResult
    securityResult := perfectSecurityResult
    lighthouseData := none }

/-- A page at path "/contact" with every security flag at its worst. -/
def weakSecurityPage : PageResult :=
  { path := "/contact"
    seoResult := perfectSeoResult
    performanceResult := perfectPerformanceResult
    securityResult :=
      { isHttps := false
        hasXContentTypeOptions := false
        hasXFrameOptions := false
        hasContentSecurityPolicy := false
        exposedWpVersion := true }
    lighthouseData := none }

/-- A first page (the homepage) whose canonical URL is absent while
everything else is present. -/
def canonicalFreeFirstPage : PageResult :=
  { path := "/"
    seoResult := { perfectSeoResult with canonicalUrl := none }
    performanceResult := perfectPerformanceResult
    securityResult := perfectSecurityResult
    lighthouseData := none }

/-- Quality rank of an HTML size category, for the monotonicity statement:
excellent 0, good 1, fair 2, poor 3. -/
def htmlSizeRank : HtmlSizeCategory → Nat
  | .excellent => 0
  | .good => 1
  | .fair => 2
  | .poor => 3

/-! ## Evaluation lemmas for the fixtures -/

lemma cacheValueNonempty : "max-age=3600".isEmpty = false := by decide

/-- The perfect raw counts classify excellent in all four categories, and the
good-band vitals classify good on all four metrics. -/
lemma analyzePerformance_perfect_vitals :
    analyzePerformance perfectPerformanceResult (some goodVitals)
      = ⟨.excellent, .excellent, .excellent, .excellent,
         some ⟨.good, .good, .good, .good⟩⟩ := by
  norm_num [analyzePerformance, perfectPerformanceResult, goodVitals,
    htmlSizeCategoryOf, scriptLoadCategoryOf, imageOptimizationOf, cachingOf,
    lcpStatusOf, clsStatusOf, inpStatusOf, ttfbStatusOf, totalImages,
    modernFormats, optTruthy, cacheValueNonempty]

/-- Without a field-performance record the same counts classify excellent
everywhere and the vitals block is absent. -/
lemma analyzePerformance_perfect_none :
    analyzePerformance perfectPerformanceResult none
      = ⟨.excellent, .excellent, .excellent, .excellent, none⟩ := by
  norm_num [analyzePerformance, perfectPerformanceResult,
    htmlSizeCategoryOf, scriptLoadCategoryOf, imageOptimizationOf, cachingOf,
    totalImages, modernFormats, optTruthy, cacheValueNonempty]

set_option maxRecDepth 4000 in
lemma analyzeSeo_perfect :
    analyzeSeo perfectSeoResult
      = ⟨.excellent, .excellent, .excellent, true, true, true⟩ := by
  decide

lemma analyzeSecurity_perfect :
    analyzeSecurity perfectSecurityResult
      = ⟨.secure, .excellent, .hidden, .strong⟩ := by
  decide

lemma analyzeModernization_perfect :
    analyzeModernization perfectModernizationResult
      = ⟨.full, .modern, .yes, .ready⟩ := by
  decide

/-! ## Claim theorems -/

/-- C1: with perfect base performance (all four categories excellent, base
score 30) and a field-performance record whose four Core Web Vitals all
classify good (LCP 2000 ms, CLS 0.05, INP 150 ms, TTFB 700 ms), the v0.4.0
scorer awards the +3/+3/+3/+2 bonus: the performance sub-score is 41 and the
overall score 111, unclamped. -/
theorem bonus_overlay_scores_41_and_111 :
    (analyzePerformance perfectPerformanceResult (some goodVitals)).htmlSizeCategory
        = .excellent
  ∧ (analyzePerformance perfectPerformanceResult (some goodVitals)).scriptLoadCategory
        = .excellent
  ∧ (analyzePerformance perfectPerformanceResult (some goodVitals)).imageOptimization
        = .excellent
  ∧ (analyzePerformance perfectPerformanceResult (some goodVitals)).caching
        = .excellent
  ∧ scorePerformance (analyzePerformance perfectPerformanceResult (some goodVitals)) = 30
  ∧ (analyzePerformance perfectPerformanceResult (some goodVitals)).coreWebVitals
        = some { lcpStatus := .good, clsStatus := .good,
                 inpStatus := .good, ttfbStatus := .good }
  ∧ calculateScoresWithVitals
       (analyzePerformance perfectPerformanceResult (some goodVitals))
       (analyzeSeo perfectSeoResult)
       (analyzeSecurity perfectSecurityResult)
       (analyzeModernization perfectModernizationResult)
     = { performance := 41, seo := 25, security := 25, modernization := 20,
         overall := 111, rating := .healthy } := by
  rw [analyzePerformance_perfect_vitals, analyzeSeo_perfect,
    analyzeSecurity_perfect, analyzeModernization_perfect]
  decide

/-- C3: for the maximally perfect single-page input (HTTPS, all three
security headers, hidden version, ideal title and meta lengths, one H1,
canonical, robots and sitemap, small HTML, few scripts, modern images,
caching, full REST with both endpoints, modern permalinks, CDN, and no
field-performance record) the four sub-scores are exactly 30, 25, 25, 20
and the overall score is exactly 100, the flat +4 CSS and +5 update-posture
baselines included. -/
theorem perfect_input_scores_100 :
    calculateScores
       (analyzePerformance perfectPerformanceResult none)
       (analyzeSeo perfectSeoResult)
       (analyzeSecurity perfectSecurityResult)
       (analyzeModernization perfectModernizationResult)
     = { performance := 30, seo := 25, security := 25, modernization := 20,
         overall := 100, rating := .healthy } := by
  rw [analyzePerformance_perfect_none, analyzeSeo_perfect,
    analyzeSecurity_perfect, analyzeModernization_perfect]
  decide

/-- C4: for every overall score, the rating is healthy iff the score is at
least 80, needs-optimization iff it is in [60, 80), needs-modernization iff
it is in [40, 60), and legacy otherwise; the boundaries are inclusive-lower,
and 80, 79, 60, 59, 40, 39 map to healthy, needs-optimization,
needs-optimization, needs-modernization, needs-modernization, legacy. -/
theorem rating_bands (n : Nat) :
    (getRating n = .healthy ↔ 80 ≤ n)
  ∧ (getRating n = .needsOptimization ↔ 60 ≤ n ∧ n < 80)
  ∧ (getRating n = .needsModernization ↔ 40 ≤ n ∧ n < 60)
  ∧ (getRating n = .legacy ↔ n < 40)
  ∧ getRating 80 = .healthy
  ∧ getRating 79 = .needsOptimization
  ∧ getRating 60 = .needsOptimization
  ∧ getRating 59 = .needsModernization
  ∧ getRating 40 = .needsModernization
  ∧ getRating 39 = .legacy := by
  refine ⟨?_, ?_, ?_, ?_, by decide, by decide, by decide, by decide, by decide, by decide⟩ <;>
    · unfold getRating
      split_ifs <;> simp <;> omega

/-- C9: the HTML size category is monotone (never improving as the byte count
grows), and at the fixed breakpoints 99999, 100000, 200000, 300000 bytes it
classifies excellent, good, fair, poor — stepping through every bucket
exactly once. -/
theorem html_size_monotone (b1 b2 : Nat) :
    (b1 ≤ b2 → htmlSizeRank (htmlSizeCategoryOf b1) ≤ htmlSizeRank (htmlSizeCategoryOf b2))
  ∧ htmlSizeCategoryOf 99999 = .excellent
  ∧ htmlSizeCategoryOf 100000 = .good
  ∧ htmlSizeCategoryOf 200000 = .fair
  ∧ htmlSizeCategoryOf 300000 = .poor := by
  refine ⟨fun h => ?_, by decide, by decide, by decide, by decide⟩
  unfold htmlSizeCategoryOf
  split_ifs <;> simp [htmlSizeRank] <;> omega

/-- C8: the aggregation-and-scoring core refuses an empty page list — the
run aborts and no aggregate (hence no coverage denominator) is ever formed
— while every non-empty list yields a scoring result. -/
theorem empty_input_is_fatal (modernizationResult : ModernizationResult)
    (first : PageResult) (rest : List PageResult) :
    runAuditCore [] modernizationResult = Option.none
  ∧ (runAuditCore (first :: rest) modernizationResult).isSome = true := by
  exact ⟨rfl, rfl⟩

/-! ## Helper lemmas for the aggregation claims -/

lemma one_le_seoWeight (p : PageResult) : 1 ≤ seoWeight p := by
  unfold seoWeight
  split_ifs <;> omega

/-- The weighted count rewritten as a sum of per-page contributions: each
page contributes its weight when the feature holds, 0 otherwise. -/
lemma weightedSeoCount_eq_sum_ite (pred : SeoResult → Bool) (l : List PageResult) :
    weightedSeoCount pred l
      = (l.map fun p => if pred p.seoResult then seoWeight p else 0).sum := by
  induction l with
  | nil => rfl
  | cons p l ih =>
      unfold weightedSeoCount at ih ⊢
      by_cases h : pred p.seoResult <;>
        simp [List.filter_cons, h, ih]

lemma weightedSeoCount_pos_of_head (pred : SeoResult → Bool) (first : PageResult)
    (rest : List PageResult) (h : pred first.seoResult = true) :
    0 < weightedSeoCount pred (first :: rest) := by
  unfold weightedSeoCount
  rw [List.filter_cons]
  simp only [h, if_true]
  have := one_le_seoWeight first
  simp
  omega

lemma not_ge_95_of_not_ge_70 {c : ℚ} (h : ¬ c ≥ 7/10) : ¬ c ≥ 95/100 := by
  intro h95
  exact h (le_trans (by norm_num) h95)

/-- C6: security is taken verbatim from the first page only — two runs of the
same length that agree on the first page's security record produce the same
aggregated security record, the same security classification and the same
security sub-score, whatever the non-first pages hold. -/
theorem security_first_page_only (p q : PageResult) (rest rest' : List PageResult)
    (hsec : p.securityResult = q.securityResult)
    (hlen : rest.length = rest'.length) :
    aggregatedSecurity p rest = aggregatedSecurity q rest'
  ∧ analyzeSecurity (aggregatedSecurity p rest)
      = analyzeSecurity (aggregatedSecurity q rest')
  ∧ scoreSecurity (analyzeSecurity (aggregatedSecurity p rest))
      = scoreSecurity (analyzeSecurity (aggregatedSecurity q rest')) := by
  unfold aggregatedSecurity
  rw [hsec]
  exact ⟨rfl, rfl, rfl⟩

/-- Witness for C6: a 3-page run keeps its security classification when a
non-first page's security flags all flip. -/
theorem security_first_page_only_witness :
    aggregatedSecurity auditedPageA [auditedPageB]
      = aggregatedSecurity auditedPageA [weakSecurityPage]
  ∧ analyzeSecurity (aggregatedSecurity auditedPageA [auditedPageB])
      = analyzeSecurity (aggregatedSecurity auditedPageA [weakSecurityPage])
  ∧ scoreSecurity (analyzeSecurity (aggregatedSecurity auditedPageA [auditedPageB]))
      = scoreSecurity (analyzeSecurity (aggregatedSecurity auditedPageA [weakSecurityPage])) :=
  security_first_page_only auditedPageA auditedPageA [auditedPageB] [weakSecurityPage]
    rfl rfl

/-- C5: the homepage (path "/" or "") weighs 2 and every other page 1, a
feature's coverage is the weighted count of pages exhibiting it over the
total weight, and on the 3-page example (titled homepage, titled page,
untitled page) the title coverage is exactly 3/4. -/
theorem weighted_seo_coverage (first : PageResult) (rest : List PageResult) :
    (∀ p : PageResult, isHomepage p.path = true → seoWeight p = 2)
  ∧ (∀ p : PageResult, isHomepage p.path = false → seoWeight p = 1)
  ∧ (aggregatedSeo first rest).aggregation.titleCoverage
      = (((first :: rest).map fun p =>
            if optTruthy p.seoResult.title then seoWeight p else 0).sum : ℚ)
        / (((first :: rest).map seoWeight).sum : ℚ)
  ∧ (aggregatedSeo auditedPageA [auditedPageB, untitledPage]).aggregation.titleCoverage
      = 3/4 := by
  refine ⟨?_, ?_, ?_, ?_⟩
  · intro p hp
    simp [seoWeight, hp]
  · intro p hp
    simp [seoWeight, hp]
  · simp [aggregatedSeo, pagesWithTitle, totalSeoWeight,
      weightedSeoCount_eq_sum_ite]
  · have h3 : pagesWithTitle [auditedPageA, auditedPageB, untitledPage] = 3 := by
      decide
    have h4 : totalSeoWeight [auditedPageA, auditedPageB, untitledPage] = 4 := by
      decide
    show (pagesWithTitle [auditedPageA, auditedPageB, untitledPage] : ℚ)
        / (totalSeoWeight [auditedPageA, auditedPageB, untitledPage] : ℚ) = 3/4
    rw [h3, h4]
    norm_num

/-- C7: every scoring result has its four sub-scores inside 0–41 (0–30 when
no Core-Web-Vitals block was computed), 0–25, 0–25 and 0–20, and its overall
score is the unclamped sum of the four. -/
theorem subscore_bounds (pa : PerformanceAnalysis) (sa : SeoAnalysis)
    (seca : SecurityAnalysis) (ma : ModernizationAnalysis) :
    (calculateScoresWithVitals pa sa seca ma).performance ≤ 41
  ∧ (pa.coreWebVitals = Option.none →
      (calculateScoresWithVitals pa sa seca ma).performance ≤ 30)
  ∧ (calculateScoresWithVitals pa sa seca ma).seo ≤ 25
  ∧ (calculateScoresWithVitals pa sa seca ma).security ≤ 25
  ∧ (calculateScoresWithVitals pa sa seca ma).modernization ≤ 20
  ∧ (calculateScoresWithVitals pa sa seca ma).overall
      = (calculateScoresWithVitals pa sa seca ma).performance
        + (calculateScoresWithVitals pa sa seca ma).seo
        + (calculateScoresWithVitals pa sa seca ma).security
        + (calculateScoresWithVitals pa sa seca ma).modernization := by
  have hbase : scorePerformance pa ≤ 30 := Nat.min_le_right _ _
  have hbonus : cwvBonus pa.coreWebVitals ≤ 11 := by
    cases hc : pa.coreWebVitals with
    | none => simp [cwvBonus]
    | some c =>
        obtain ⟨l, cl, i, t⟩ := c
        cases l <;> cases cl <;> cases i <;> cases t <;>
          simp [cwvBonus, cwvMetricBonus, ttfbBonus]
  refine ⟨?_, ?_, Nat.min_le_right _ _, Nat.min_le_right _ _, Nat.min_le_right _ _, rfl⟩
  · show scorePerformance pa + cwvBonus pa.coreWebVitals ≤ 41
    omega
  · intro h
    show scorePerformance pa + cwvBonus pa.coreWebVitals ≤ 30
    rw [h]
    simpa [cwvBonus] using hbase

/-- Witness for C7: the bounds instantiated at the perfect vitals-free
analyses. -/
theorem subscore_bounds_witness :
    (calculateScoresWithVitals (analyzePerformance perfectPerformanceResult none)
        (analyzeSeo perfectSeoResult) (analyzeSecurity perfectSecurityResult)
        (analyzeModernization perfectModernizationResult)).performance ≤ 41
  ∧ ((analyzePerformance perfectPerformanceResult none).coreWebVitals = Option.none →
      (calculateScoresWithVitals (analyzePerformance perfectPerformanceResult none)
        (analyzeSeo perfectSeoResult) (analyzeSecurity perfectSecurityResult)
        (analyzeModernization perfectModernizationResult)).performance ≤ 30)
  ∧ (calculateScoresWithVitals (analyzePerformance perfectPerformanceResult none)
        (analyzeSeo perfectSeoResult) (analyzeSecurity perfectSecurityResult)
        (analyzeModernization perfectModernizationResult)).seo ≤ 25
  ∧ (calculateScoresWithVitals (analyzePerformance perfectPerformanceResult none)
        (analyzeSeo perfectSeoResult) (analyzeSecurity perfectSecurityResult)
        (analyzeModernization perfectModernizationResult)).security ≤ 25
  ∧ (calculateScoresWithVitals (analyzePerformance perfectPerformanceResult none)
        (analyzeSeo perfectSeoResult) (analyzeSecurity perfectSecurityResult)
        (analyzeModernization perfectModernizationResult)).modernization ≤ 20
  ∧ (calculateScoresWithVitals (analyzePerformance perfectPerformanceResult none)
        (analyzeSeo perfectSeoResult) (analyzeSecurity perfectSecurityResult)
        (analyzeModernization perfectModernizationResult)).overall
      = (calculateScoresWithVitals (analyzePerformance perfectPerformanceResult none)
          (analyzeSeo perfectSeoResult) (analyzeSecurity perfectSecurityResult)
          (analyzeModernization perfectModernizationResult)).performance
        + (calculateScoresWithVitals (analyzePerformance perfectPerformanceResult none)
            (analyzeSeo perfectSeoResult) (analyzeSecurity perfectSecurityResult)
            (analyzeModernization perfectModernizationResult)).seo
        + (calculateScoresWithVitals (analyzePerformance perfectPerformanceResult none)
            (analyzeSeo perfectSeoResult) (analyzeSecurity perfectSecurityResult)
            (analyzeModernization perfectModernizationResult)).security
        + (calculateScoresWithVitals (analyzePerformance perfectPerformanceResult none)
            (analyzeSeo perfectSeoResult) (analyzeSecurity perfectSecurityResult)
            (analyzeModernization perfectModernizationResult)).modernization :=
  subscore_bounds (analyzePerformance perfectPerformanceResult none)
    (analyzeSeo perfectSeoResult) (analyzeSecurity perfectSecurityResult)
    (analyzeModernization perfectModernizationResult)

/-- C2: the aggregated SEO analyzer buckets title, meta description and
H1-exactly-one by weighted coverage — at least 0.95 is excellent, at least
0.7 is good with an issue carrying round((1 - coverage) * 100) percent
missing, anything lower is missing with the stronger critical issue — and
the thresholds do not depend on the page count N. -/
theorem seo_coverage_buckets (agg : AggregatedSeo) :
    (agg.aggregation.titleCoverage ≥ 95/100 →
        (analyzeSeoAggregated agg).titleQuality = .excellent)
  ∧ (¬ agg.aggregation.titleCoverage ≥ 95/100 →
     agg.aggregation.titleCoverage ≥ 7/10 →
        (analyzeSeoAggregated agg).titleQuality = .good
      ∧ SeoIssue.coverageGap .title (round ((1 - agg.aggregation.titleCoverage) * 100))
          ∈ aggregatedSeoIssues agg)
  ∧ (¬ agg.aggregation.titleCoverage ≥ 7/10 →
        (analyzeSeoAggregated agg).titleQuality = .missing
      ∧ SeoIssue.criticalGap .title (round ((1 - agg.aggregation.titleCoverage) * 100))
          ∈ aggregatedSeoIssues agg)
  ∧ (agg.aggregation.metaCoverage ≥ 95/100 →
        (analyzeSeoAggregated agg).metaDescriptionQuality = .excellent)
  ∧ (¬ agg.aggregation.metaCoverage ≥ 95/100 →
     agg.aggregation.metaCoverage ≥ 7/10 →
        (analyzeSeoAggregated agg).metaDescriptionQuality = .good
      ∧ SeoIssue.coverageGap .metaDescription
            (round ((1 - agg.aggregation.metaCoverage) * 100))
          ∈ aggregatedSeoIssues agg)
  ∧ (¬ agg.aggregation.metaCoverage ≥ 7/10 →
        (analyzeSeoAggregated agg).metaDescriptionQuality = .missing
      ∧ SeoIssue.criticalGap .metaDescription
            (round ((1 - agg.aggregation.metaCoverage) * 100))
          ∈ aggregatedSeoIssues agg)
  ∧ (agg.aggregation.h1Coverage ≥ 95/100 →
        (analyzeSeoAggregated agg).h1Quality = .excellent)
  ∧ (¬ agg.aggregation.h1Coverage ≥ 95/100 →
     agg.aggregation.h1Coverage ≥ 7/10 →
        (analyzeSeoAggregated agg).h1Quality = .issues
      ∧ SeoIssue.coverageGap .h1 (round ((1 - agg.aggregation.h1Coverage) * 100))
          ∈ aggregatedSeoIssues agg)
  ∧ (¬ agg.aggregation.h1Coverage ≥ 7/10 →
        (analyzeSeoAggregated agg).h1Quality = .missing
      ∧ SeoIssue.criticalGap .h1 (round ((1 - agg.aggregation.h1Coverage) * 100))
          ∈ aggregatedSeoIssues agg)
  ∧ (∀ n : Nat,
      analyzeSeoAggregated
          { agg with aggregation := { agg.aggregation with totalPages := n } }
        = analyzeSeoAggregated agg
      ∧ aggregatedSeoIssues
          { agg with aggregation := { agg.aggregation with totalPages := n } }
        = aggregatedSeoIssues agg) := by
  refine ⟨?_, ?_, ?_, ?_, ?_, ?_, ?_, ?_, ?_, fun n => ⟨rfl, rfl⟩⟩
  · intro h
    simp [analyzeSeoAggregated, coverageQuality, h]
  · intro h95 h70
    constructor
    · simp [analyzeSeoAggregated, coverageQuality, h95, h70]
    · simp [aggregatedSeoIssues, coverageIssues, percentMissingOf, h95, h70]
  · intro h70
    have h95 := not_ge_95_of_not_ge_70 h70
    constructor
    · simp [analyzeSeoAggregated, coverageQuality, h95, h70]
    · simp [aggregatedSeoIssues, coverageIssues, percentMissingOf, h95, h70]
  · intro h
    simp [analyzeSeoAggregated, coverageQuality, h]
  · intro h95 h70
    constructor
    · simp [analyzeSeoAggregated, coverageQuality, h95, h70]
    · simp [aggregatedSeoIssues, coverageIssues, percentMissingOf, h95, h70]
  · intro h70
    have h95 := not_ge_95_of_not_ge_70 h70
    constructor
    · simp [analyzeSeoAggregated, coverageQuality, h95, h70]
    · simp [aggregatedSeoIssues, coverageIssues, percentMissingOf, h95, h70]
  · intro h
    simp [analyzeSeoAggregated, h1CoverageQuality, h]
  · intro h95 h70
    constructor
    · simp [analyzeSeoAggregated, h1CoverageQuality, h95, h70]
    · simp [aggregatedSeoIssues, coverageIssues, percentMissingOf, h95, h70]
  · intro h70
    have h95 := not_ge_95_of_not_ge_70 h70
    constructor
    · simp [analyzeSeoAggregated, h1CoverageQuality, h95, h70]
    · simp [aggregatedSeoIssues, coverageIssues, percentMissingOf, h95, h70]

set_option maxRecDepth 8000 in
/-- Counterexample to C10: in a 2-page run whose second page has a canonical
URL but whose first page does not, the aggregated record carries no
canonical, the analyzer reports hasCanonical = false and the SEO sub-score
is 21 (the flat 4 canonical points are NOT awarded), although a page of the
input does have a canonical URL. -/
theorem canonical_any_page_counterexample :
    optTruthy auditedPageB.seoResult.canonicalUrl = true
  ∧ 0 < pagesWithCanonical [canonicalFreeFirstPage, auditedPageB]
  ∧ (aggregatedSeo canonicalFreeFirstPage [auditedPageB]).canonicalUrl = none
  ∧ (analyzeSeoAggregated
        (aggregatedSeo canonicalFreeFirstPage [auditedPageB])).hasCanonical = false
  ∧ scoreSeo (analyzeSeoAggregated
        (aggregatedSeo canonicalFreeFirstPage [auditedPageB])) = 21 := by
  have ht : pagesWithTitle [canonicalFreeFirstPage, auditedPageB] = 3 := by decide
  have hm : pagesWithMeta [canonicalFreeFirstPage, auditedPageB] = 3 := by decide
  have hh : pagesWithGoodH1 [canonicalFreeFirstPage, auditedPageB] = 3 := by decide
  have hw : totalSeoWeight [canonicalFreeFirstPage, auditedPageB] = 3 := by decide
  have hanalysis : analyzeSeoAggregated
      (aggregatedSeo canonicalFreeFirstPage [auditedPageB])
      = ⟨.excellent, .excellent, .excellent, false, true, true⟩ := by
    simp only [analyzeSeoAggregated, aggregatedSeo]
    rw [ht, hm, hh, hw]
    norm_num [coverageQuality, h1CoverageQuality, optTruthy]
    decide
  refine ⟨by decide, by decide, by decide, ?_, ?_⟩
  · rw [hanalysis]
  · rw [hanalysis]
    decide

/-- C10 amended: the aggregated hasCanonical flag (and with it the flat 4
canonical points) follows the FIRST audited page alone — it is true exactly
when the first page's canonical URL is truthy, whatever the other pages
carry; canonical coverage by non-first pages never shows up in the score. -/
theorem canonical_follows_first_page (first : PageResult) (rest : List PageResult) :
    (analyzeSeoAggregated (aggregatedSeo first rest)).hasCanonical
      = optTruthy first.seoResult.canonicalUrl := by
  by_cases h : 0 < pagesWithCanonical (first :: rest)
  · show optTruthy (if pagesWithCanonical (first :: rest) > 0
        then first.seoResult.canonicalUrl else none)
      = optTruthy first.seoResult.canonicalUrl
    rw [if_pos h]
  · have hf : optTruthy first.seoResult.canonicalUrl = false := by
      by_contra hc
      have htrue : optTruthy first.seoResult.canonicalUrl = true := by
        revert hc
        cases optTruthy first.seoResult.canonicalUrl <;> simp
      exact h (weightedSeoCount_pos_of_head _ first rest htrue)
    show optTruthy (if pagesWithCanonical (first :: rest) > 0
        then first.seoResult.canonicalUrl else none)
      = optTruthy first.seoResult.canonicalUrl
    rw [if_neg h, hf]
    rfl

end WpAudit
